import Mathlib

/-!
# Verification of the lux-backend request-gating and media-index subsystem

Shallow embedding of the reputation store, blacklist ledger, gate pipeline,
and filesystem indexer of the lux-backend server (`src/middleware` /
`src/unnamed/part_005`, `src/auth/auth.js`, `src/server.js`,
`src/routes/video_routes.js` / `src/unnamed/part_003`), together with
theorems settling the specification claims about them.

JS objects keyed by strings are modelled as association lists with
first-match lookup; JS `Set` values as `List String` with guarded insertion;
`undefined` readings of absent object keys as `Option.none` / `false`;
`Date` timestamps as `Nat`.
-/

namespace Lux

/-! ## Association-list maps (model of JS object property access) -/

/-- First-match lookup, modelling JS property read `m[k]` (maps to
`undefined`, i.e. `none`, when the key is absent). -/
def alookup {β : Type} (k : String) : List (String × β) → Option β
  | [] => none
  | (a, b) :: rest => if a = k then some b else alookup k rest

/-- Property assignment `m[k] = v`: later bindings shadow earlier ones. -/
def aset {β : Type} (k : String) (v : β) (m : List (String × β)) :
    List (String × β) :=
  (k, v) :: m

/-- Property deletion `delete m[k]`. -/
def aerase {β : Type} (k : String) (m : List (String × β)) :
    List (String × β) :=
  m.filter (fun kv => kv.1 ≠ k)

/-! ## String primitives

JS `String.prototype.split` with a one-character separator, `Array.join`,
and `String.prototype.startsWith`, written by structural recursion on the
character list so that concrete evaluations reduce inside the kernel. -/

/-- Auxiliary loop for `jsSplit`: `acc` holds the current segment
reversed. -/
def jsSplitAux (sep : Char) : List Char → List Char → List String
  | [], acc => [String.mk acc.reverse]
  | c :: rest, acc =>
      if c = sep then String.mk acc.reverse :: jsSplitAux sep rest []
      else jsSplitAux sep rest (c :: acc)

/-- Model of `s.split(sep)` for a one-character separator: every separator
occurrence ends a segment, and the empty string splits to `[""]`. -/
def jsSplit (sep : Char) (s : String) : List String :=
  jsSplitAux sep s.data []

/-- Model of `parts.join(sep)`. -/
def jsJoin (sep : String) : List String → String
  | [] => ""
  | [x] => x
  | x :: y :: rest => x ++ sep ++ jsJoin sep (y :: rest)

/-- Character-list core of `jsStartsWith`. -/
def charsLeadWith : List Char → List Char → Bool
  | _, [] => true
  | [], _ :: _ => false
  | c :: cs, p :: ps => c = p && charsLeadWith cs ps

/-- Model of `s.startsWith(pre)`. -/
def jsStartsWith (s pre : String) : Bool :=
  charsLeadWith s.data pre.data

/-! ## Reputation store and blacklist ledger (src/unnamed/part_005) -/

/-- One `_ipHistory` record.  `recordIPFailedAttempt` writes object literals
without a `hasSentValidToken` key; reading the absent key yields a falsy
value, modelled as `hasSentValidToken = false`. -/
structure IpRecord where
  lastRequest : Nat
  failedAttempts : Nat
  hasSentValidToken : Bool
deriving DecidableEq, Repr

/-- The module-level mutable state of the middleware: the `_ipHistory` map,
the in-memory `_blacklist` set, and the lines appended to `blacklist.tsv`
(as `(userAgent, ip)` pairs; the leading `Date()` column carries no logic). -/
structure GateState where
  ipHistory : List (String × IpRecord)
  blacklist : List String
  ledger : List (String × String)
deriving DecidableEq, Repr

/-- Reading `_ipHistory[ip]?.hasSentValidToken`, coerced to a boolean the way the
JS optional-chain read is used in boolean position. -/
def hasFlag (ip : String) (s : GateState) : Bool :=
  match alookup ip s.ipHistory with
  | some r => r.hasSentValidToken
  | none => false

/-- Reading `_ipHistory[ip]["failedAttempts"] ?? 0`. -/
def failCount (ip : String) (s : GateState) : Nat :=
  match alookup ip s.ipHistory with
  | some r => r.failedAttempts
  | none => 0

/-- Model of `blacklistIP(ip, userAgent)`: returns immediately when the ip is
already in the in-memory set; otherwise deletes the history record of the ip, adds the ip
to the in-memory set, and appends a line to `blacklist.tsv`. -/
def blacklistIP (ip userAgent : String) (s : GateState) : GateState :=
  if ip ∈ s.blacklist then s
  else
    { s with
      ipHistory := aerase ip s.ipHistory
      blacklist := ip :: s.blacklist
      ledger := s.ledger ++ [(userAgent, ip)] }

/-- Model of `recordIPFailedAttempt(ip, userAgent)` with the configured
`config.server.LimitFailedLoginAttempts` threshold and the current time as
explicit parameters.  The source first inserts a zero record when none
exists, then overwrites the record with an incremented counter (the literal
has no `hasSentValidToken` key), then bans when the threshold is reached. -/
def recordIPFailedAttempt (threshold now : Nat) (ip userAgent : String)
    (s : GateState) : GateState :=
  let hist0 :=
    if (alookup ip s.ipHistory).isNone then
      aset ip { lastRequest := now, failedAttempts := 0,
                hasSentValidToken := false } s.ipHistory
    else s.ipHistory
  let prevCount :=
    match alookup ip hist0 with
    | some r => r.failedAttempts
    | none => 0
  let newRec : IpRecord :=
    { lastRequest := now, failedAttempts := prevCount + 1,
      hasSentValidToken := false }
  let s1 : GateState := { s with ipHistory := aset ip newRec hist0 }
  if threshold ≤ newRec.failedAttempts then blacklistIP ip userAgent s1
  else s1

/-- Model of `recordIPSuccessfulAttempt(ip)`: overwrites the record with
`{hasSentValidToken: true, lastRequest: now, failedAttempts: 0}`. -/
def recordIPSuccessfulAttempt (now : Nat) (ip : String) (s : GateState) :
    GateState :=
  { s with
    ipHistory := aset ip
      { lastRequest := now, failedAttempts := 0, hasSentValidToken := true }
      s.ipHistory }

/-- Iterated model: `n` consecutive `recordIPFailedAttempt` calls for the same identifier
(with fixed clock and user agent), innermost first. -/
def applyFails (threshold now : Nat) (ip userAgent : String) :
    Nat → GateState → GateState
  | 0, s => s
  | n + 1, s =>
      recordIPFailedAttempt threshold now ip userAgent
        (applyFails threshold now ip userAgent n s)

/-! ### The `logIP` response-finish hook -/

/-- The data available to the `res.on("finish")` callback installed by
`logIP`: the coalesced identifier `req.headers.host ?? req.ip`, the user
agent, `req.path`, the final `res.statusCode`, and the current time. -/
structure FinishEvent where
  ip : String
  userAgent : String
  path : String
  statusCode : Nat
  now : Nat
deriving DecidableEq, Repr

/-- Model of `req.path ? req.path.split("/") : []`. -/
def pathElems (path : String) : List String :=
  if path = "" then [] else jsSplit '/' path

/-- The keyed-public-path test of `logIP`: at least two path elements, the
second equal to `"public"`, and a truthy third element naming an existing
folder under `./public` (`pubDirs` lists the names for which
`fs.existsSync("./public/" + pathKey)` holds).  A missing third element and
an empty one are both falsy, so a single `getD "" ` default is faithful. -/
def isKeyedPublicPath (pubDirs : List String) (path : String) : Bool :=
  let elems := pathElems path
  decide (2 ≤ elems.length) && (elems.getD 1 "" == "public")
    && (elems.getD 2 "" != "") && pubDirs.contains (elems.getD 2 "")

/-- The body of the `logIP` finish callback: trusted identifiers are left
untouched; a request into an existing keyed public folder is recorded as a
success regardless of status; otherwise a 4xx status records a failure and
anything else records a success. -/
def logIPFinish (threshold : Nat) (pubDirs : List String) (e : FinishEvent)
    (s : GateState) : GateState :=
  if hasFlag e.ip s then s
  else if isKeyedPublicPath pubDirs e.path then
    recordIPSuccessfulAttempt e.now e.ip s
  else if 400 ≤ e.statusCode ∧ e.statusCode < 500 then
    recordIPFailedAttempt threshold e.now e.ip e.userAgent s
  else recordIPSuccessfulAttempt e.now e.ip s

/-! ### The rate-limit handler -/

/-- What the `expressRateLimit` `handler` does with the hanging request.
The source handler is declared as `function (req, res)`: it never receives
the continuation, so `passToNext` (invoking the next pipeline stage) is
unreachable; `noAction` is the branch that returns without sending any
response. -/
inductive HandlerFlow
  | respond (status : Nat)
  | passToNext
  | noAction
deriving DecidableEq, Repr

/-- Result of running the rate-limit handler. -/
structure RLOutcome where
  state : GateState
  flow : HandlerFlow
deriving DecidableEq, Repr

/-- The `handler` of the `rateLimit` middleware, invoked once the window
count is exceeded: identifiers with `hasSentValidToken` are returned from
without any effect; everyone else is blacklisted and answered 429. -/
def rateLimitHandler (ip userAgent : String) (s : GateState) : RLOutcome :=
  if hasFlag ip s then ⟨s, .noAction⟩
  else ⟨blacklistIP ip userAgent s, .respond 429⟩

/-! ### Gate events (the operations that mutate the shared maps) -/

/-- The two operations through which middleware mutates `_ipHistory` and
`_blacklist` during serving: a response finishing (the `logIP` hook) and
the rate limiter invoking its over-limit handler.  (The periodic
`updateBlacklist` file refresh is modelled separately.) -/
inductive GateEvent
  | finish (e : FinishEvent)
  | limitExceeded (ip userAgent : String)
deriving DecidableEq, Repr

/-- Apply one gate event. -/
def stepGate (threshold : Nat) (pubDirs : List String) :
    GateEvent → GateState → GateState
  | .finish e, s => logIPFinish threshold pubDirs e s
  | .limitExceeded ip ua, s => (rateLimitHandler ip ua s).state

/-- Apply a sequence of gate events, leftmost first. -/
def runGate (threshold : Nat) (pubDirs : List String) :
    List GateEvent → GateState → GateState
  | [], s => s
  | ev :: rest, s =>
      runGate threshold pubDirs rest (stepGate threshold pubDirs ev s)

/-! ## The gate pipeline (src/server.js middleware registration order) -/

/-- Observable pipeline events, one per middleware side effect. -/
inductive Event
  | trafficLogged
  | tokenChecked
  | mediaPathEnsured
  | staticServed
  | blacklistChecked
  | rateLimitChecked
  | routeDispatched
deriving DecidableEq, Repr

/-- An inbound request.  `ipHost` is the already-coalesced
`req.headers.host ?? req.ip` identifier used uniformly by the middleware. -/
structure Request where
  ipHost : String
  path : String
  authHeader : Option String
  userAgent : String
  now : Nat

/-- Environment of a single request: the configured failure threshold, the
JWT validator (`isJWTValid`, returning an error string, empty when valid),
the folders existing under `./public`, the static-file resolver for
`express.static`, whether this request exceeds the rate-limit window, and
the status a dispatched route would answer. -/
structure Env where
  threshold : Nat
  jwtCheck : String → String
  pubDirs : List String
  hasStaticFile : String → Bool
  overLimit : Bool
  routeStatus : Nat

/-- Model of `getJWTFromReq` (src/auth/auth.js): the `Authorization` header split on
a space must have exactly two elements; the token is the second. -/
def getJWTFromReq (authHeader : Option String) : String :=
  match authHeader with
  | none => ""
  | some a =>
      let eles := jsSplit ' ' a
      if eles.length ≠ 2 then "" else eles.getD 1 ""

/-- Result of one full request lifecycle.  `response = none` means no
response was ever sent (the request hangs) and thus the finish hook never
fires. -/
structure PipeResult where
  state : GateState
  response : Option Nat
  events : List Event
deriving Repr

/-- One request through the `app.use` chain of src/server.js, in
registration order: cors, the two body parsers, `logIP` (installs the
finish hook), `trafficLogger`, `verifyAuth`, `express.static` on
`/public`, `blacklist`, `rateLimit`, then the routers.  Whichever stage
sends a response ends the chain, after which the `logIP` finish hook runs
against the final status code. -/
def handleRequest (env : Env) (req : Request) (s : GateState) : PipeResult :=
  let finishHook := fun (code : Nat) (st : GateState) =>
    logIPFinish env.threshold env.pubDirs
      { ip := req.ipHost, userAgent := req.userAgent, path := req.path,
        statusCode := code, now := req.now } st
  let evLog := [Event.trafficLogged]
  let needsAuth := req.path ≠ "" ∧ jsStartsWith req.path "/auth" = false
      ∧ jsStartsWith req.path "/public" = false
  if needsAuth ∧ env.jwtCheck (getJWTFromReq req.authHeader) ≠ "" then
    { state := finishHook 401 s, response := some 401,
      events := evLog ++ [.tokenChecked] }
  else
    let evAuth :=
      if needsAuth then evLog ++ [.tokenChecked, .mediaPathEnsured]
      else evLog
    if jsStartsWith req.path "/public" = true
        ∧ env.hasStaticFile req.path = true then
      { state := finishHook 200 s, response := some 200,
        events := evAuth ++ [.staticServed] }
    else if req.ipHost ∈ s.blacklist then
      { state := finishHook 403 s, response := some 403,
        events := evAuth ++ [.blacklistChecked] }
    else if env.overLimit then
      let o := rateLimitHandler req.ipHost req.userAgent s
      match o.flow with
      | .respond c =>
          { state := finishHook c o.state, response := some c,
            events := evAuth ++ [.blacklistChecked, .rateLimitChecked] }
      | .noAction =>
          { state := o.state, response := none,
            events := evAuth ++ [.blacklistChecked, .rateLimitChecked] }
      | .passToNext =>
          { state := finishHook env.routeStatus o.state,
            response := some env.routeStatus,
            events := evAuth ++
              [.blacklistChecked, .rateLimitChecked, .routeDispatched] }
    else
      { state := finishHook env.routeStatus s,
        response := some env.routeStatus,
        events := evAuth ++
          [.blacklistChecked, .rateLimitChecked, .routeDispatched] }

/-! ## Periodic blacklist refresh (updateBlacklist, src/unnamed/part_005) -/

/-- Value of `ExitCodes.ADMIN_ERROR` from src/utilities/shutdown.js. -/
def ADMIN_ERROR : Int := -5

/-- Outcome of one `updateBlacklist` tick: either `shutdown(null, code)`
(which calls `process.exit(code)` when no server handle is given) or the
new in-memory set. -/
inductive RefreshOutcome
  | terminated (exitCode : Int)
  | updated (blacklist : List String)
deriving DecidableEq, Repr

/-- Model of the JS `Set.add`: idempotent insertion. -/
def saddset (x : String) (s : List String) : List String :=
  if x ∈ s then s else x :: s

/-- The line loop shared by `initBlacklist` and `updateBlacklist`: split the
file on newlines, skip any line with fewer than three tab-separated
columns, and add the third column to the set. -/
def parseBlacklistLines (data : String) (bl : List String) : List String :=
  (jsSplit '\n' data).foldl
    (fun acc line =>
      let cols := jsSplit '\t' line
      if cols.length < 3 then acc else saddset (cols.getD 2 "") acc)
    bl

/-- One tick of `updateBlacklist` over the current in-memory set, with the
result of `fs.readFile("./blacklist.tsv")` as input (`none` is a read
error).  The error callback logs the error and then calls
`shutdown(null, ExitCodes.ADMIN_ERROR)`. -/
def updateBlacklistOnce (readResult : Option String) (bl : List String) :
    RefreshOutcome :=
  match readResult with
  | none => .terminated ADMIN_ERROR
  | some data => .updated (parseBlacklistLines data bl)

/-! ## Startup and the media-path grants (src/server.js, src/auth/auth.js) -/

/-- A folder directly under `./public` with its contained entries. -/
structure PubFolder where
  name : String
  files : List String
deriving DecidableEq, Repr

/-- Model of `removeMediaPathSync` (src/auth/auth.js): for every folder under
`./public` other than `assets`, remove each contained file and then the
folder itself. -/
def removeMediaPathSync : List PubFolder → List PubFolder
  | [] => []
  | f :: rest =>
      if f.name = "assets" then f :: removeMediaPathSync rest
      else removeMediaPathSync rest

/-- The executable statements of src/server.js that run between module load
and `app.listen`.  The `removeMediaPathSync()` invocation that used to sit
between route registration and the password-hash check is commented out in
the source ("REMOVED because this causes issues if the client is in the
middle of accessing media when we restart"), so it is absent here. -/
inductive StartupStep
  | registerMiddleware
  | registerRoutes
  | checkPwdHash
  | beginMediaUpdatePolling
  | listen
deriving DecidableEq, Repr

/-- The startup statements in source order. -/
def serverStartupSteps : List StartupStep :=
  [.registerMiddleware, .registerRoutes, .checkPwdHash,
   .beginMediaUpdatePolling, .listen]

/-- Effect of each startup statement on the `./public` directory: middleware
and route registration build the express app; the password check reads
`./.pwd_hash`; metadata polling touches the media caches; `listen` opens
the socket.  None of them creates or deletes anything under `./public`. -/
def applyStartupStep : StartupStep → List PubFolder → List PubFolder
  | .registerMiddleware, pub => pub
  | .registerRoutes, pub => pub
  | .checkPwdHash, pub => pub
  | .beginMediaUpdatePolling, pub => pub
  | .listen, pub => pub

/-- Run the whole startup sequence over the `./public` contents. -/
def runServerStartup (pub : List PubFolder) : List PubFolder :=
  serverStartupSteps.foldl (fun acc st => applyStartupStep st acc) pub

/-! ## Subtitle filename decomposition (src/unnamed/part_003) -/

/-- The three components encoded in a subtitle filename. -/
structure SubtitleParts where
  episodeName : String
  trackKey : String
  encoding : String
deriving DecidableEq, Repr

/-- Model of `splitSubtitleFile`: split on `"."`; fewer than three segments returns
the unparseable signal (the JS function returns the empty string there,
whose destructured fields are all `undefined`; modelled as `none`);
otherwise everything up to the last two segments rejoined with `"."` is the
episode name, then the track key, then the encoding. -/
def splitSubtitleFile (file : String) : Option SubtitleParts :=
  let elements := jsSplit '.' file
  if elements.length < 3 then none
  else
    some
      { episodeName := jsJoin "." (elements.take (elements.length - 2))
        trackKey := elements.getD (elements.length - 2) ""
        encoding := elements.getD (elements.length - 1) "" }

/-! ## The video filesystem index (src/unnamed/part_003) -/

/-- An `_fsIndex["index"]` entry.  The builders write the keys `episodes`,
`subtitlesMap` and `isGood` (plus an unread `subtitles: []` relic in
`initFSIndex`); the subtitle routes destructure the key `subtitleMap`,
which no builder ever writes, so reading it yields `undefined` — the
`subtitleMap` field records exactly that key and stays `none` in every
constructed entry.  The `subtitlesMap` keys are the `episodeKey` values
destructured from `splitSubtitleFile`, which returns no such field, so
every file is grouped under the single `undefined` key (`none`). -/
structure TitleEntry where
  episodes : List String
  subtitlesMap : Option (List (Option String × List String))
  subtitleMap : Option (List (String × List String))
  isGood : Bool
deriving DecidableEq, Repr

/-- The root `_fsIndex` structure. -/
structure FsIndex where
  isGood : Bool
  index : List (String × TitleEntry)
deriving DecidableEq, Repr

/-- Directory-listing environment for one build/refresh pass: the titles
under the video folder (`none` = `readdir` failure), and the episode and
subtitle listings per title. -/
structure FsEnv where
  videoTitles : Option (List String)
  episodesOf : String → Option (List String)
  subtitlesOf : String → Option (List String)

/-- The `subtitlesMap` accumulation loop: every file is pushed onto the
list stored under the destructured (undefined) `episodeKey`. -/
def buildSubtitlesMap (subs : List String) :
    List (Option String × List String) :=
  match subs with
  | [] => []
  | _ => [(none, subs)]

/-- The entry of one title as built by `initFSIndex`: a failed episode listing
sets `isGood: false` and leaves `episodes` empty; a failed subtitle listing
stores an empty map (the `catch` writes `titleData["subtitlesMap"] = {}`).
No branch writes a `subtitleMap` key. -/
def initTitleEntry (env : FsEnv) (title : String) : TitleEntry :=
  let (episodes, isGood) :=
    match env.episodesOf title with
    | some eps => (eps, true)
    | none => ([], false)
  let subtitlesMap :=
    match env.subtitlesOf title with
    | some subs => some (buildSubtitlesMap subs)
    | none => some []
  { episodes := episodes, subtitlesMap := subtitlesMap,
    subtitleMap := none, isGood := isGood }

/-- Model of `initFSIndex`: a root-level `readdirSync` failure is caught and leads
to `shutdown(null, ExitCodes.ADMIN_ERROR)` (`none` here); otherwise every
listed title gets an entry.  The root `isGood` flag starts `false` and is
never written by `initFSIndex`. -/
def initFSIndex (env : FsEnv) : Option FsIndex :=
  match env.videoTitles with
  | none => none
  | some titles =>
      some
        { isGood := false
          index :=
            titles.foldl
              (fun acc t => aset t (initTitleEntry env t) acc) [] }

/-- The entry of one title as finally stored by an `updateFSIndex` pass: an
episode-listing failure stores `{episodes: [], isGood: false}`; a
subtitle-listing failure stores `subtitlesMap: null`; otherwise the built
map.  No branch writes a `subtitleMap` key. -/
def updateTitleEntry (env : FsEnv) (title : String) : TitleEntry :=
  match env.episodesOf title with
  | none =>
      { episodes := [], subtitlesMap := none, subtitleMap := none,
        isGood := false }
  | some eps =>
      match env.subtitlesOf title with
      | none =>
          { episodes := eps, subtitlesMap := none, subtitleMap := none,
            isGood := true }
      | some subs =>
          { episodes := eps, subtitlesMap := some (buildSubtitlesMap subs),
            subtitleMap := none, isGood := true }

/-- Model of one `updateFSIndex` refresh pass: a root-level `readdir` failure flips
the root `isGood` to `false` and leaves the per-title entries untouched;
otherwise the entry of every listed title is overwritten. -/
def updateFSIndex (env : FsEnv) (idx : FsIndex) : FsIndex :=
  match env.videoTitles with
  | none => { idx with isGood := false }
  | some titles =>
      { idx with
        index :=
          titles.foldl
            (fun acc t => aset t (updateTitleEntry env t) acc) idx.index }

/-- Any number of refresh passes after the initial build. -/
def foldUpdates (envs : List FsEnv) (idx : FsIndex) : FsIndex :=
  envs.foldl (fun i e => updateFSIndex e i) idx

/-- The `/subtitle-selections` route handler: 400 on a missing `title` or
`episode` query, 404 on an unknown title, 500 when the `isGood` flag of the entry is
false, 204 when the destructured `subtitleMap` is falsy or lacks the
episode, otherwise 200 with the track keys split out of the filenames. -/
def subtitleSelections (idx : FsIndex) (titleQ episodeQ : Option String) :
    Nat × Option (List (Option String)) :=
  match titleQ with
  | none => (400, none)
  | some t =>
      match episodeQ with
      | none => (400, none)
      | some ep =>
          match alookup t idx.index with
          | none => (404, none)
          | some entry =>
              if entry.isGood = false then (500, none)
              else
                match entry.subtitleMap with
                | none => (204, none)
                | some m =>
                    match alookup ep m with
                    | none => (204, none)
                    | some files =>
                        (200,
                          some (files.map
                            (fun f =>
                              (splitSubtitleFile f).map
                                SubtitleParts.trackKey)))

/-! ## Helper lemmas -/

theorem alookup_nil {β : Type} (k : String) :
    alookup (β := β) k [] = none := rfl

@[simp] theorem alookup_cons {β : Type} (k a : String) (b : β)
    (m : List (String × β)) :
    alookup k ((a, b) :: m) = if a = k then some b else alookup k m := rfl

@[simp] theorem alookup_aset {β : Type} (k k' : String) (v : β)
    (m : List (String × β)) :
    alookup k (aset k' v m) = if k' = k then some v else alookup k m := rfl

theorem alookup_aerase {β : Type} (k k' : String) (m : List (String × β)) :
    alookup k (aerase k' m) = if k' = k then none else alookup k m := by
  induction m with
  | nil => simp [aerase, alookup]
  | cons kv rest ih =>
    obtain ⟨a, b⟩ := kv
    by_cases hak' : a = k' <;> by_cases hak : a = k <;> by_cases hk : k' = k <;>
      simp_all [aerase, List.filter_cons]

theorem recordFail_not_banned (threshold now : Nat) (ip ua : String)
    (s : GateState) (h : ¬ threshold ≤ failCount ip s + 1) :
    alookup ip (recordIPFailedAttempt threshold now ip ua s).ipHistory =
        some ⟨now, failCount ip s + 1, false⟩ ∧
    (recordIPFailedAttempt threshold now ip ua s).blacklist = s.blacklist ∧
    (recordIPFailedAttempt threshold now ip ua s).ledger = s.ledger := by
  cases hv : alookup ip s.ipHistory with
  | none =>
      simp only [failCount, hv] at h ⊢
      simp [recordIPFailedAttempt, hv, h]
  | some r =>
      simp only [failCount, hv] at h ⊢
      simp [recordIPFailedAttempt, hv, h]

theorem recordFail_banned (threshold now : Nat) (ip ua : String)
    (s : GateState) (h : threshold ≤ failCount ip s + 1)
    (hbl : ip ∉ s.blacklist) :
    alookup ip (recordIPFailedAttempt threshold now ip ua s).ipHistory =
        none ∧
    (recordIPFailedAttempt threshold now ip ua s).blacklist =
        ip :: s.blacklist ∧
    (recordIPFailedAttempt threshold now ip ua s).ledger =
        s.ledger ++ [(ua, ip)] := by
  cases hv : alookup ip s.ipHistory with
  | none =>
      simp only [failCount, hv] at h ⊢
      simp [recordIPFailedAttempt, hv, h, blacklistIP, hbl, alookup_aerase]
  | some r =>
      simp only [failCount, hv] at h ⊢
      simp [recordIPFailedAttempt, hv, h, blacklistIP, hbl, alookup_aerase]

theorem recordFail_lookup_other (threshold now : Nat) (ip ua k : String)
    (s : GateState) (hne : ip ≠ k) :
    alookup k (recordIPFailedAttempt threshold now ip ua s).ipHistory =
      alookup k s.ipHistory := by
  simp only [recordIPFailedAttempt, blacklistIP]
  split_ifs <;> simp [alookup_aerase, hne]

theorem recordFail_blacklist_other (threshold now : Nat) (ip ua : String)
    (s : GateState) :
    (recordIPFailedAttempt threshold now ip ua s).blacklist = s.blacklist ∨
    (recordIPFailedAttempt threshold now ip ua s).blacklist =
      ip :: s.blacklist := by
  simp only [recordIPFailedAttempt, blacklistIP]
  split_ifs <;> simp

theorem recordSuccess_lookup_other (now : Nat) (ip k : String)
    (s : GateState) (hne : ip ≠ k) :
    alookup k (recordIPSuccessfulAttempt now ip s).ipHistory =
      alookup k s.ipHistory := by
  simp [recordIPSuccessfulAttempt, hne]

theorem recordSuccess_blacklist (now : Nat) (ip : String) (s : GateState) :
    (recordIPSuccessfulAttempt now ip s).blacklist = s.blacklist := rfl

theorem stepGate_preserves (threshold : Nat) (pubDirs : List String)
    (ip : String) (ev : GateEvent) (s : GateState)
    (hflag : hasFlag ip s = true) (hbl : ip ∉ s.blacklist) :
    hasFlag ip (stepGate threshold pubDirs ev s) = true ∧
    ip ∉ (stepGate threshold pubDirs ev s).blacklist := by
  cases ev with
  | finish e =>
      by_cases hip : e.ip = ip
      · subst hip
        simp [stepGate, logIPFinish, hflag, hbl]
      · simp only [stepGate, logIPFinish]
        split_ifs with h1 h2 h3
        · exact ⟨hflag, hbl⟩
        · constructor
          · simpa [hasFlag, recordSuccess_lookup_other e.now e.ip ip s hip]
              using hflag
          · simpa [recordSuccess_blacklist] using hbl
        · constructor
          · simpa [hasFlag,
              recordFail_lookup_other threshold e.now e.ip e.userAgent ip s
                hip] using hflag
          · rcases recordFail_blacklist_other threshold e.now e.ip
              e.userAgent s with h | h <;> simp [h, hbl, Ne.symm hip]
        · constructor
          · simpa [hasFlag, recordSuccess_lookup_other e.now e.ip ip s hip]
              using hflag
          · simpa [recordSuccess_blacklist] using hbl
  | limitExceeded ip' ua =>
      by_cases hip : ip' = ip
      · subst hip
        simp [stepGate, rateLimitHandler, hflag, hbl]
      · simp only [stepGate, rateLimitHandler, blacklistIP]
        split_ifs with h1 h2
        · exact ⟨hflag, hbl⟩
        · exact ⟨hflag, hbl⟩
        · constructor
          · simpa [hasFlag, alookup_aerase, hip] using hflag
          · simp [hbl]
            intro hcontra
            exact hip hcontra.symm

theorem runGate_preserves (threshold : Nat) (pubDirs : List String)
    (ip : String) (evs : List GateEvent) (s : GateState)
    (hflag : hasFlag ip s = true) (hbl : ip ∉ s.blacklist) :
    hasFlag ip (runGate threshold pubDirs evs s) = true ∧
    ip ∉ (runGate threshold pubDirs evs s).blacklist := by
  induction evs generalizing s with
  | nil => exact ⟨hflag, hbl⟩
  | cons ev rest ih =>
      obtain ⟨h1, h2⟩ := stepGate_preserves threshold pubDirs ip ev s hflag hbl
      exact ih (stepGate threshold pubDirs ev s) h1 h2

theorem applyFails_below (threshold now : Nat) (ip ua : String)
    (s : GateState) (h0 : failCount ip s = 0) :
    ∀ k, k < threshold →
      (applyFails threshold now ip ua k s).blacklist = s.blacklist ∧
      (applyFails threshold now ip ua k s).ledger = s.ledger ∧
      failCount ip (applyFails threshold now ip ua k s) = k := by
  intro k
  induction k with
  | zero => intro _; exact ⟨rfl, rfl, h0⟩
  | succ n ih =>
      intro hlt
      obtain ⟨hb, hl, hc⟩ := ih (Nat.lt_of_succ_lt hlt)
      set sn := applyFails threshold now ip ua n s with hsn
      have hnot : ¬ threshold ≤ failCount ip sn + 1 := by omega
      obtain ⟨hlook, hbl', hld'⟩ :=
        recordFail_not_banned threshold now ip ua sn hnot
      refine ⟨?_, ?_, ?_⟩
      · simpa [applyFails, hb] using hbl'
      · simpa [applyFails, hl] using hld'
      · have hstep :
            failCount ip (recordIPFailedAttempt threshold now ip ua sn) =
              failCount ip sn + 1 := by
          simp [failCount, hlook]
        simp [applyFails, hstep, hc]

theorem alookup_foldl_aset {β : Type} (P : β → Prop) (f : String → β)
    (hP : ∀ t, P (f t)) :
    ∀ (ts : List String) (acc : List (String × β)),
      (∀ k v, alookup k acc = some v → P v) →
      ∀ k v,
        alookup k (ts.foldl (fun a t => aset t (f t) a) acc) = some v →
          P v := by
  intro ts
  induction ts with
  | nil => intro acc hacc k v h; exact hacc k v h
  | cons t rest ih =>
      intro acc hacc k v h
      refine ih (aset t (f t) acc) ?_ k v h
      intro k' v' h'
      by_cases htk : t = k'
      · rw [alookup_aset, if_pos htk] at h'
        cases h'
        exact hP t
      · rw [alookup_aset, if_neg htk] at h'
        exact hacc k' v' h'

theorem initTitleEntry_subtitleMap_none (env : FsEnv) (t : String) :
    (initTitleEntry env t).subtitleMap = none := by
  cases h1 : env.episodesOf t <;> cases h2 : env.subtitlesOf t <;>
    simp [initTitleEntry, h1, h2]

theorem updateTitleEntry_subtitleMap_none (env : FsEnv) (t : String) :
    (updateTitleEntry env t).subtitleMap = none := by
  cases h1 : env.episodesOf t <;> cases h2 : env.subtitlesOf t <;>
    simp [updateTitleEntry, h1, h2]

theorem initFSIndex_subtitleMap_none (env : FsEnv) (idx : FsIndex)
    (h : initFSIndex env = some idx) :
    ∀ t e, alookup t idx.index = some e → e.subtitleMap = none := by
  cases hv : env.videoTitles with
  | none => simp [initFSIndex, hv] at h
  | some titles =>
      simp only [initFSIndex, hv] at h
      cases h
      intro t e he
      exact alookup_foldl_aset (fun x => x.subtitleMap = none)
        (initTitleEntry env) (initTitleEntry_subtitleMap_none env) titles []
        (by intro k v hk; simp [alookup] at hk) t e he

theorem updateFSIndex_subtitleMap_none (env : FsEnv) (idx : FsIndex)
    (hinv : ∀ t e, alookup t idx.index = some e → e.subtitleMap = none) :
    ∀ t e, alookup t (updateFSIndex env idx).index = some e →
      e.subtitleMap = none := by
  cases hv : env.videoTitles with
  | none => simpa [updateFSIndex, hv] using hinv
  | some titles =>
      simp only [updateFSIndex, hv]
      intro t e he
      exact alookup_foldl_aset (fun x => x.subtitleMap = none)
        (updateTitleEntry env) (updateTitleEntry_subtitleMap_none env)
        titles idx.index hinv t e he

theorem foldUpdates_subtitleMap_none (envs : List FsEnv) (idx : FsIndex)
    (hinv : ∀ t e, alookup t idx.index = some e → e.subtitleMap = none) :
    ∀ t e, alookup t (foldUpdates envs idx).index = some e →
      e.subtitleMap = none := by
  induction envs generalizing idx with
  | nil => exact hinv
  | cons env rest ih =>
      exact ih (updateFSIndex env idx)
        (updateFSIndex_subtitleMap_none env idx hinv)

theorem mem_saddset (x ip : String) (s : List String) (h : ip ∈ s) :
    ip ∈ saddset x s := by
  unfold saddset
  split_ifs
  · exact h
  · exact List.mem_cons_of_mem _ h

theorem mem_parseBlacklistLines (ip data : String) (bl : List String)
    (h : ip ∈ bl) : ip ∈ parseBlacklistLines data bl := by
  unfold parseBlacklistLines
  generalize jsSplit '\n' data = lines
  induction lines generalizing bl with
  | nil => simpa using h
  | cons line rest ih =>
      simp only [List.foldl_cons]
      refine ih _ ?_
      by_cases hc : (jsSplit '\t' line).length < 3
      · simpa [hc] using h
      · simpa [hc] using mem_saddset ((jsSplit '\t' line).getD 2 "") ip bl h

/-! ## Claim theorems -/

/-- C2 (counterexample): a failed periodic blacklist read does not keep the
process serving with the last-known set; `updateBlacklist` terminates the
process with the administrative exit code. -/
theorem c2_refresh_failure_counterexample :
    updateBlacklistOnce none ["1.2.3.4"] =
      RefreshOutcome.terminated (-5) ∧
    updateBlacklistOnce none ["1.2.3.4"] ≠
      RefreshOutcome.updated ["1.2.3.4"] := by decide

/-- C2 (amended): when the periodic `updateBlacklist` read of the persisted
ledger fails, the error is logged and the process terminates with the
`ADMIN_ERROR` exit status (the same treatment as a startup load failure);
it does not keep serving.  On a successful read the in-memory set only
grows: every previously known identifier is retained. -/
theorem c2_refresh_failure_amended (bl : List String) (data ip : String)
    (h : ip ∈ bl) :
    updateBlacklistOnce none bl = RefreshOutcome.terminated ADMIN_ERROR ∧
    ∃ bl', updateBlacklistOnce (some data) bl =
        RefreshOutcome.updated bl' ∧ ip ∈ bl' :=
  ⟨rfl, parseBlacklistLines data bl, rfl,
    mem_parseBlacklistLines ip data bl h⟩

theorem c2_refresh_failure_witness :
    updateBlacklistOnce none ["9.9.9.9"] =
      RefreshOutcome.terminated ADMIN_ERROR ∧
    ∃ bl', updateBlacklistOnce (some "ts\tua\t1.2.3.4") ["9.9.9.9"] =
        RefreshOutcome.updated bl' ∧ "9.9.9.9" ∈ bl' :=
  c2_refresh_failure_amended ["9.9.9.9"] "ts\tua\t1.2.3.4" "9.9.9.9"
    (by decide)

/-- C3 (counterexample): a previously granted media-path folder under the
public directory survives process startup untouched: the startup sequence
never deletes it, because the `removeMediaPathSync()` call is commented
out in src/server.js. -/
theorem c3_no_startup_purge_counterexample :
    (⟨"grant01", ["movie.mp4"]⟩ : PubFolder) ∈
      runServerStartup [⟨"assets", []⟩, ⟨"grant01", ["movie.mp4"]⟩] ∧
    ("grant01" : String) ≠ "assets" := by decide

/-- C3 (amended): the startup sequence of src/server.js leaves the public
directory untouched (the stale-grant cleanup call is commented out), while
the `removeMediaPathSync` function itself, were it invoked, would keep
exactly the permanently reserved `assets` folder and delete every other
granted folder. -/
theorem c3_startup_and_purge_amended (pub : List PubFolder) :
    runServerStartup pub = pub ∧
    ∀ f : PubFolder,
      f ∈ removeMediaPathSync pub ↔ f ∈ pub ∧ f.name = "assets" := by
  refine ⟨rfl, ?_⟩
  intro f
  induction pub with
  | nil => simp [removeMediaPathSync]
  | cons g rest ih =>
      by_cases hg : g.name = "assets"
      · rw [show removeMediaPathSync (g :: rest) =
              g :: removeMediaPathSync rest by
            simp [removeMediaPathSync, hg]]
        simp only [List.mem_cons]
        constructor
        · rintro (rfl | hf)
          · exact ⟨Or.inl rfl, hg⟩
          · obtain ⟨h1, h2⟩ := ih.mp hf
            exact ⟨Or.inr h1, h2⟩
        · rintro ⟨rfl | h1, hname⟩
          · exact Or.inl rfl
          · exact Or.inr (ih.mpr ⟨h1, hname⟩)
      · rw [show removeMediaPathSync (g :: rest) = removeMediaPathSync rest
              by simp [removeMediaPathSync, hg]]
        simp only [List.mem_cons]
        rw [ih]
        constructor
        · rintro ⟨h1, h2⟩
          exact ⟨Or.inr h1, h2⟩
        · rintro ⟨rfl | h1, hname⟩
          · exact absurd hname hg
          · exact ⟨h1, hname⟩

theorem c3_startup_and_purge_witness :
    runServerStartup [⟨"assets", []⟩, ⟨"grant01", ["movie.mp4"]⟩] =
      [⟨"assets", []⟩, ⟨"grant01", ["movie.mp4"]⟩] ∧
    (⟨"assets", []⟩ : PubFolder) ∈
      removeMediaPathSync [⟨"assets", []⟩, ⟨"grant01", ["movie.mp4"]⟩] :=
  ⟨(c3_startup_and_purge_amended
      [⟨"assets", []⟩, ⟨"grant01", ["movie.mp4"]⟩]).1,
   ((c3_startup_and_purge_amended
      [⟨"assets", []⟩, ⟨"grant01", ["movie.mp4"]⟩]).2
      ⟨"assets", []⟩).mpr ⟨by decide, rfl⟩⟩

/-- C4 (counterexample): for an identifier whose record has
`hasSentValidToken` set, the over-limit handler does not let the request
through to the later pipeline stages: declared as `function (req, res)`,
it has no continuation to invoke and simply returns, leaving the request
unanswered. -/
theorem c4_handler_no_forward_counterexample :
    hasFlag "9.9.9.9" ⟨[("9.9.9.9", ⟨0, 0, true⟩)], [], []⟩ = true ∧
    (rateLimitHandler "9.9.9.9" "ua"
        ⟨[("9.9.9.9", ⟨0, 0, true⟩)], [], []⟩).flow ≠
      HandlerFlow.passToNext := by decide

/-- C4 (amended): when an identifier exceeds the configured request count,
the over-limit handler itself bans it (adds it to the blacklist ledger)
and responds 429 unless its reputation record has `hasSentValidToken` set,
in which case the handler leaves the state untouched and returns without
sending a response or forwarding the request to later pipeline stages. -/
theorem c4_rate_limit_handler_amended (ip ua : String) (s : GateState) :
    (hasFlag ip s = false →
      ip ∈ (rateLimitHandler ip ua s).state.blacklist ∧
      (rateLimitHandler ip ua s).flow = HandlerFlow.respond 429) ∧
    (hasFlag ip s = true →
      (rateLimitHandler ip ua s).state = s ∧
      (rateLimitHandler ip ua s).flow = HandlerFlow.noAction) := by
  constructor
  · intro h
    refine ⟨?_, ?_⟩
    · by_cases hbl : ip ∈ s.blacklist <;>
        simp [rateLimitHandler, h, blacklistIP, hbl]
    · simp [rateLimitHandler, h]
  · intro h
    simp [rateLimitHandler, h]

theorem c4_rate_limit_handler_witness :
    "9.9.9.9" ∈
      (rateLimitHandler "9.9.9.9" "ua" ⟨[], [], []⟩).state.blacklist ∧
    (rateLimitHandler "9.9.9.9" "ua" ⟨[], [], []⟩).flow =
      HandlerFlow.respond 429 :=
  (c4_rate_limit_handler_amended "9.9.9.9" "ua" ⟨[], [], []⟩).1 (by decide)

/-- C7 (counterexample): recording a failure for an identifier whose record
has `hasSentValidToken = true` does not preserve that flag: the record is
replaced by an object literal without the key, so the flag reads as unset
afterwards. -/
theorem c7_flag_dropped_counterexample :
    (alookup "7.7.7.7"
        (⟨[("7.7.7.7", ⟨5, 0, true⟩)], [], []⟩ : GateState).ipHistory).map
        IpRecord.hasSentValidToken = some true ∧
    (alookup "7.7.7.7"
        ((recordIPFailedAttempt 10 6 "7.7.7.7" "ua"
            ⟨[("7.7.7.7", ⟨5, 0, true⟩)], [], []⟩).ipHistory)).map
        IpRecord.hasSentValidToken = some false := by decide

/-- C7 (amended): recording a failure for an identifier that already has a
reputation record replaces the record with a fresh object holding only the
new last-request timestamp and the incremented failure counter; the
has-sent-valid-token flag is dropped (reads as unset afterwards) rather
than preserved.  Below the ban threshold the blacklist is unchanged. -/
theorem c7_failure_overwrite_amended (threshold now : Nat) (ip ua : String)
    (s : GateState) (r : IpRecord) (hr : alookup ip s.ipHistory = some r)
    (hlt : r.failedAttempts + 1 < threshold) :
    alookup ip (recordIPFailedAttempt threshold now ip ua s).ipHistory =
      some { lastRequest := now, failedAttempts := r.failedAttempts + 1,
             hasSentValidToken := false } ∧
    (recordIPFailedAttempt threshold now ip ua s).blacklist =
      s.blacklist := by
  have h1 : failCount ip s = r.failedAttempts := by simp [failCount, hr]
  have h2 : ¬ threshold ≤ failCount ip s + 1 := by omega
  obtain ⟨ha, hb, _⟩ := recordFail_not_banned threshold now ip ua s h2
  rw [h1] at ha
  exact ⟨ha, hb⟩

theorem c7_failure_overwrite_witness :
    alookup "7.7.7.7"
        ((recordIPFailedAttempt 10 6 "7.7.7.7" "ua"
            ⟨[("7.7.7.7", ⟨5, 0, true⟩)], [], []⟩).ipHistory) =
      some ⟨6, 1, false⟩ :=
  (c7_failure_overwrite_amended 10 6 "7.7.7.7" "ua"
    ⟨[("7.7.7.7", ⟨5, 0, true⟩)], [], []⟩ ⟨5, 0, true⟩
    (by decide) (by decide)).1

/-- C8 (confirmed): the subtitle filename decomposition is a pure function;
on `"Show X Episode 1.Eng.srt"` it yields episode name
`"Show X Episode 1"`, track key `"Eng"` and encoding `"srt"`, and every
filename with fewer than three dot-separated segments yields the explicit
unparseable signal instead of a decomposition. -/
theorem c8_subtitle_decomposition_confirmed :
    splitSubtitleFile "Show X Episode 1.Eng.srt" =
      some { episodeName := "Show X Episode 1", trackKey := "Eng",
             encoding := "srt" } ∧
    ∀ f : String, (jsSplit '.' f).length < 3 →
      splitSubtitleFile f = none := by
  constructor
  · decide
  · intro f h
    simp [splitSubtitleFile, h]

theorem c8_subtitle_decomposition_witness :
    (jsSplit '.' "Show X Episode 1").length < 3 ∧
    splitSubtitleFile "Show X Episode 1" = none :=
  ⟨by decide,
   c8_subtitle_decomposition_confirmed.2 "Show X Episode 1" (by decide)⟩

/-- C5 (confirmed): for every identifier and configured threshold `N > 0`,
starting from a clean failure count outside the blacklist: any recorded
success resets the failure count to exactly zero; `N - 1` consecutive
recorded failures never trigger a ban; the `N`-th consecutive failure
always does, and on that ban the identifier is removed from the
reputation store. -/
theorem c5_failure_threshold_confirmed (threshold now : Nat)
    (ip ua : String) (s : GateState) (hN : 0 < threshold)
    (h0 : failCount ip s = 0) (hbl : ip ∉ s.blacklist) :
    (∀ (s' : GateState) (now' : Nat),
        failCount ip (recordIPSuccessfulAttempt now' ip s') = 0) ∧
    (∀ k, k < threshold →
        ip ∉ (applyFails threshold now ip ua k s).blacklist) ∧
    ip ∈ (applyFails threshold now ip ua threshold s).blacklist ∧
    alookup ip
        (applyFails threshold now ip ua threshold s).ipHistory = none := by
  obtain ⟨n, rfl⟩ : ∃ n, threshold = n + 1 := ⟨threshold - 1, by omega⟩
  refine ⟨?_, ?_, ?_, ?_⟩
  · intro s' now'
    simp [recordIPSuccessfulAttempt, failCount]
  · intro k hk
    obtain ⟨hb, _, _⟩ := applyFails_below (n + 1) now ip ua s h0 k hk
    rw [hb]
    exact hbl
  · obtain ⟨hb, _, hc⟩ :=
      applyFails_below (n + 1) now ip ua s h0 n (by omega)
    have hble : ip ∉ (applyFails (n + 1) now ip ua n s).blacklist := by
      rw [hb]; exact hbl
    have hth :
        n + 1 ≤ failCount ip (applyFails (n + 1) now ip ua n s) + 1 := by
      rw [hc]
    obtain ⟨_, hblk, _⟩ :=
      recordFail_banned (n + 1) now ip ua
        (applyFails (n + 1) now ip ua n s) hth hble
    show ip ∈ (recordIPFailedAttempt (n + 1) now ip ua
      (applyFails (n + 1) now ip ua n s)).blacklist
    rw [hblk]
    exact List.mem_cons_self _ _
  · obtain ⟨hb, _, hc⟩ :=
      applyFails_below (n + 1) now ip ua s h0 n (by omega)
    have hble : ip ∉ (applyFails (n + 1) now ip ua n s).blacklist := by
      rw [hb]; exact hbl
    have hth :
        n + 1 ≤ failCount ip (applyFails (n + 1) now ip ua n s) + 1 := by
      rw [hc]
    obtain ⟨hlook, _, _⟩ :=
      recordFail_banned (n + 1) now ip ua
        (applyFails (n + 1) now ip ua n s) hth hble
    exact hlook

theorem c5_failure_threshold_witness :
    "1.2.3.4" ∉ (applyFails 2 0 "1.2.3.4" "ua" 1 ⟨[], [], []⟩).blacklist ∧
    "1.2.3.4" ∈ (applyFails 2 0 "1.2.3.4" "ua" 2 ⟨[], [], []⟩).blacklist ∧
    alookup "1.2.3.4"
      (applyFails 2 0 "1.2.3.4" "ua" 2 ⟨[], [], []⟩).ipHistory = none :=
  ⟨(c5_failure_threshold_confirmed 2 0 "1.2.3.4" "ua" ⟨[], [], []⟩
      (by decide) (by decide) (by decide)).2.1 1 (by decide),
   (c5_failure_threshold_confirmed 2 0 "1.2.3.4" "ua" ⟨[], [], []⟩
      (by decide) (by decide) (by decide)).2.2.1,
   (c5_failure_threshold_confirmed 2 0 "1.2.3.4" "ua" ⟨[], [], []⟩
      (by decide) (by decide) (by decide)).2.2.2⟩

/-- C6 (confirmed): an identifier whose reputation record has
`hasSentValidToken` set, and which is not already blacklisted, is never
added to the blacklist by any sequence of response-finish recordings or
rate-limit handler invocations, for any mix of identifiers, paths and
status codes. -/
theorem c6_trusted_never_banned_confirmed (threshold : Nat)
    (pubDirs : List String) (evs : List GateEvent) (ip : String)
    (s : GateState) (hflag : hasFlag ip s = true)
    (hbl : ip ∉ s.blacklist) :
    ip ∉ (runGate threshold pubDirs evs s).blacklist :=
  (runGate_preserves threshold pubDirs ip evs s hflag hbl).2

theorem c6_trusted_never_banned_witness :
    "t.example" ∉
      (runGate 10 []
        [GateEvent.finish ⟨"t.example", "ua", "/auth/x", 404, 1⟩,
         GateEvent.limitExceeded "t.example" "ua",
         GateEvent.finish ⟨"t.example", "ua", "/manga/y", 401, 2⟩,
         GateEvent.finish ⟨"other.example", "ua", "/z", 404, 3⟩]
        ⟨[("t.example", ⟨0, 0, true⟩)], [], []⟩).blacklist :=
  c6_trusted_never_banned_confirmed 10 []
    [GateEvent.finish ⟨"t.example", "ua", "/auth/x", 404, 1⟩,
     GateEvent.limitExceeded "t.example" "ua",
     GateEvent.finish ⟨"t.example", "ua", "/manga/y", 401, 2⟩,
     GateEvent.finish ⟨"other.example", "ua", "/z", 404, 3⟩]
    "t.example" ⟨[("t.example", ⟨0, 0, true⟩)], [], []⟩
    (by decide) (by decide)

/-- C9 (confirmed): when a response finishes for an identifier without
`hasSentValidToken` and the request path is `/public/<key>` with `<key>` a
non-empty segment naming an existing folder under the public directory,
the finish hook records a success — setting `hasSentValidToken` and
resetting the failure count to zero — for every status code and with no
token validated, after which the rate-limit handler never bans that
identifier. -/
theorem c9_public_path_success_confirmed (threshold : Nat)
    (pubDirs : List String) (ip ua path : String) (status now : Nat)
    (s : GateState) (hflag : hasFlag ip s = false)
    (hkey : isKeyedPublicPath pubDirs path = true) :
    alookup ip
        (logIPFinish threshold pubDirs
          ⟨ip, ua, path, status, now⟩ s).ipHistory =
      some { lastRequest := now, failedAttempts := 0,
             hasSentValidToken := true } ∧
    (rateLimitHandler ip ua
        (logIPFinish threshold pubDirs
          ⟨ip, ua, path, status, now⟩ s)).state =
      logIPFinish threshold pubDirs ⟨ip, ua, path, status, now⟩ s ∧
    (rateLimitHandler ip ua
        (logIPFinish threshold pubDirs
          ⟨ip, ua, path, status, now⟩ s)).flow = HandlerFlow.noAction := by
  have hstate :
      logIPFinish threshold pubDirs ⟨ip, ua, path, status, now⟩ s =
        recordIPSuccessfulAttempt now ip s := by
    simp [logIPFinish, hflag, hkey]
  have hlook :
      alookup ip (recordIPSuccessfulAttempt now ip s).ipHistory =
        some { lastRequest := now, failedAttempts := 0,
               hasSentValidToken := true } := by
    simp [recordIPSuccessfulAttempt]
  have hflag2 :
      hasFlag ip (recordIPSuccessfulAttempt now ip s) = true := by
    simp [hasFlag, hlook]
  rw [hstate]
  exact ⟨hlook, by simp [rateLimitHandler, hflag2],
    by simp [rateLimitHandler, hflag2]⟩

theorem c9_public_path_success_witness :
    hasFlag "9.9.9.9" ⟨[], [], []⟩ = false ∧
    isKeyedPublicPath ["abc"] "/public/abc" = true ∧
    alookup "9.9.9.9"
        (logIPFinish 10 ["abc"]
          ⟨"9.9.9.9", "ua", "/public/abc", 404, 7⟩ ⟨[], [], []⟩).ipHistory =
      some { lastRequest := 7, failedAttempts := 0,
             hasSentValidToken := true } :=
  ⟨by decide, by decide,
   (c9_public_path_success_confirmed 10 ["abc"] "9.9.9.9" "ua"
      "/public/abc" 404 7 ⟨[], [], []⟩ (by decide) (by decide)).1⟩

/-- C10 (confirmed): for every index reachable by the initial build plus
any number of refresh passes, every title present and marked good, and
every episode, the `/subtitle-selections` endpoint answers 204 and never
200, because the builders store subtitles under the key `subtitlesMap`
while the route destructures the key `subtitleMap`, which is never set. -/
theorem c10_subtitle_selections_204_confirmed (env0 : FsEnv)
    (envs : List FsEnv) (idx0 : FsIndex) (t ep : String)
    (entry : TitleEntry) (hinit : initFSIndex env0 = some idx0)
    (hent : alookup t (foldUpdates envs idx0).index = some entry)
    (hgood : entry.isGood = true) :
    (subtitleSelections (foldUpdates envs idx0)
        (some t) (some ep)).1 = 204 ∧
    (subtitleSelections (foldUpdates envs idx0)
        (some t) (some ep)).1 ≠ 200 := by
  have hmap : entry.subtitleMap = none :=
    foldUpdates_subtitleMap_none envs idx0
      (initFSIndex_subtitleMap_none env0 idx0 hinit) t entry hent
  constructor
  · simp [subtitleSelections, hent, hgood, hmap]
  · simp [subtitleSelections, hent, hgood, hmap]

theorem c10_subtitle_selections_204_witness :
    (subtitleSelections
        (foldUpdates []
          { isGood := false
            index := [("T", { episodes := ["e1"]
                              subtitlesMap := some [(none, ["f.a.b"])]
                              subtitleMap := none, isGood := true })] })
        (some "T") (some "e1")).1 = 204 :=
  (c10_subtitle_selections_204_confirmed
    ⟨some ["T"], fun _ => some ["e1"], fun _ => some ["f.a.b"]⟩ []
    { isGood := false
      index := [("T", { episodes := ["e1"]
                        subtitlesMap := some [(none, ["f.a.b"])]
                        subtitleMap := none, isGood := true })] }
    "T" "e1"
    { episodes := ["e1"], subtitlesMap := some [(none, ["f.a.b"])]
      subtitleMap := none, isGood := true }
    (by decide) (by decide) rfl).1

/-- C1 (counterexample): a request from a blacklisted identifier is indeed
answered 403, but not at the first pipeline stage: traffic logging and
token validation both run first (the blacklist middleware is registered
after them), and the finish hook then mutates the reputation store for the
banned identifier. -/
theorem c1_blacklist_not_first_counterexample :
    "b.example" ∈ (⟨[], ["b.example"], []⟩ : GateState).blacklist ∧
    (handleRequest ⟨10, fun _ => "", ["assets"], fun _ => false, false, 200⟩
        ⟨"b.example", "/manga/x", some "Bearer t", "ua", 0⟩
        ⟨[], ["b.example"], []⟩).response = some 403 ∧
    Event.trafficLogged ∈
      (handleRequest ⟨10, fun _ => "", ["assets"], fun _ => false, false, 200⟩
        ⟨"b.example", "/manga/x", some "Bearer t", "ua", 0⟩
        ⟨[], ["b.example"], []⟩).events ∧
    Event.tokenChecked ∈
      (handleRequest ⟨10, fun _ => "", ["assets"], fun _ => false, false, 200⟩
        ⟨"b.example", "/manga/x", some "Bearer t", "ua", 0⟩
        ⟨[], ["b.example"], []⟩).events ∧
    (handleRequest ⟨10, fun _ => "", ["assets"], fun _ => false, false, 200⟩
        ⟨"b.example", "/manga/x", some "Bearer t", "ua", 0⟩
        ⟨[], ["b.example"], []⟩).state ≠
      ⟨[], ["b.example"], []⟩ := by decide

/-- C1 (amended): for a blacklisted identifier the rate limiter and the
routers never run — the blacklist middleware sits before them — and
whenever the request reaches the blacklist stage it is rejected with 403;
but the blacklist check is the eighth registered stage, so CORS, body
parsing, the reputation finish hook, traffic logging, token validation
with media-path provisioning, and static serving all still execute for
banned identifiers. -/
theorem c1_blacklist_gate_amended (env : Env) (req : Request)
    (s : GateState) (hbl : req.ipHost ∈ s.blacklist) :
    Event.rateLimitChecked ∉ (handleRequest env req s).events ∧
    Event.routeDispatched ∉ (handleRequest env req s).events ∧
    (Event.blacklistChecked ∈ (handleRequest env req s).events →
      (handleRequest env req s).response = some 403) := by
  simp only [handleRequest]
  split_ifs with h1 h2 h3 h4 <;>
    simp_all [List.mem_append, List.mem_cons]

theorem c1_blacklist_gate_witness :
    Event.rateLimitChecked ∉
      (handleRequest ⟨10, fun _ => "", ["assets"], fun _ => false, false, 200⟩
        ⟨"b.example", "/auth/login", none, "ua", 0⟩
        ⟨[], ["b.example"], []⟩).events ∧
    Event.routeDispatched ∉
      (handleRequest ⟨10, fun _ => "", ["assets"], fun _ => false, false, 200⟩
        ⟨"b.example", "/auth/login", none, "ua", 0⟩
        ⟨[], ["b.example"], []⟩).events ∧
    (Event.blacklistChecked ∈
        (handleRequest
          ⟨10, fun _ => "", ["assets"], fun _ => false, false, 200⟩
          ⟨"b.example", "/auth/login", none, "ua", 0⟩
          ⟨[], ["b.example"], []⟩).events →
      (handleRequest ⟨10, fun _ => "", ["assets"], fun _ => false, false, 200⟩
        ⟨"b.example", "/auth/login", none, "ua", 0⟩
        ⟨[], ["b.example"], []⟩).response = some 403) :=
  c1_blacklist_gate_amended
    ⟨10, fun _ => "", ["assets"], fun _ => false, false, 200⟩
    ⟨"b.example", "/auth/login", none, "ua", 0⟩
    ⟨[], ["b.example"], []⟩ (by decide)
